import Mathlib

/-!
Verification development for the IPL advertising-analysis pipeline
(`src/data/process_data.py` and `src/analysis/main_analysis.py`).

The Python tables are shallowly embedded: a DataFrame becomes a list of row
structures (plus, where a claim depends on it, a flag recording whether an
optional column exists at table level), monetary and score values become
rationals, pandas `NaN` cells become `Option` values (`none` = NaN), and a
pandas operation that raises becomes `Except.error`.
-/

namespace IPL

/-! ## Data preparation (`src/data/process_data.py`)

`DataProcessor.calculate_health_risk_index` applies
`_calculate_risk_score(row, risk_factors)` to every row of the cleaned
advertisers table.  An advertiser row carries the columns the processing
stage reads or passes through. -/

structure AdRow where
  brand_name : String
  product_type : String
  ad_frequency : String
  social_risk_description : String
deriving Repr, DecidableEq

/-- `risk_factors['product_type'].get(row['product_type'], 0.2)` from
`_calculate_risk_score`: the product-type lookup table with default `0.2`. -/
def productTypeRisk (s : String) : ℚ :=
  if s = "pan_masala" then 0.8
  else if s = "betting_app" then 0.7
  else if s = "alcohol" then 0.6
  else if s = "tobacco" then 0.9
  else if s = "other" then 0.2
  else 0.2

/-- `risk_factors['ad_frequency'].get(row['ad_frequency'], 0.5)` from
`_calculate_risk_score`: the ad-frequency lookup table with default `0.5`. -/
def adFrequencyRisk (s : String) : ℚ :=
  if s = "high" then 0.8
  else if s = "medium" then 0.5
  else if s = "low" then 0.2
  else 0.5

/-- `DataProcessor._calculate_risk_score`:
`(product_risk * 0.7 + frequency_risk * 0.3) * 100`. -/
def calculateRiskScore (row : AdRow) : ℚ :=
  (productTypeRisk row.product_type * 0.7 + adFrequencyRisk row.ad_frequency * 0.3) * 100

/-- `DataProcessor.calculate_health_risk_index`: `df.apply` of the risk score
over each row, attaching the result as the `health_risk_index` column. -/
def calculate_health_risk_index (df : List AdRow) : List (AdRow × ℚ) :=
  df.map (fun r => (r, calculateRiskScore r))

/-! ## Shared numeric helpers for the analysis stage -/

/-- Banker's rounding to an integer, as used by `numpy`/pandas `.round` and
Python's built-in `round`: round to the nearest integer, ties to even. -/
def roundHalfEven (x : ℚ) : ℤ :=
  if x - ⌊x⌋ < 1/2 then ⌊x⌋
  else if 1/2 < x - ⌊x⌋ then ⌊x⌋ + 1
  else if Even ⌊x⌋ then ⌊x⌋ else ⌊x⌋ + 1

/-- pandas `.round(2)`: round to 2 decimal places (ties to even). -/
def round2 (x : ℚ) : ℚ := (roundHalfEven (x * 100) : ℚ) / 100

/-- pandas `Series.mean()`: sum divided by length. -/
def listMean (l : List ℚ) : ℚ := l.sum / (l.length : ℚ)

/-! ## pandas `groupby(key)[val].sum()` over an association list of rows -/

/-- The distinct group keys of a keyed row list, in first-occurrence order. -/
def uniqueKeys (l : List (String × ℚ)) : List String :=
  (l.map Prod.fst).dedup

/-- The sum of the values of all rows whose key is `k`. -/
def groupSum (l : List (String × ℚ)) (k : String) : ℚ :=
  ((l.filter (fun p => p.fst = k)).map Prod.snd).sum

/-- `df.groupby(key)[val].sum()`: one summed entry per distinct key. -/
def groupbySum (l : List (String × ℚ)) : List (String × ℚ) :=
  (uniqueKeys l).map (fun k => (k, groupSum l k))

/-! ## Revenue analysis (`IPLAnalyzer.analyze_central_contracts_revenue`)

The contracts table holds a `partner_sponsor_name` column and, when present,
an `amount_in_crores_2025` column (row `i`'s amount is `amounts[i]`).
`amounts = none` models a table in which the monetary column is absent, in
which case the subscript `contracts_df['amount_in_crores_2025']` raises a
`KeyError`; an `Except.error` models an exception raised by pandas. -/

structure ContractsDF where
  partners : List String
  amounts : Option (List ℚ)
deriving Repr, DecidableEq

structure RevResults where
  total_revenue : ℚ
  revenue_by_source : List (String × ℚ)
  revenue_percentage : List (String × ℚ)
deriving Repr, DecidableEq

/-- `IPLAnalyzer.analyze_central_contracts_revenue`: total = column sum,
by-source = `groupby('partner_sponsor_name')['amount_in_crores_2025'].sum()`,
percentage = `(by_source / total * 100).round(2)`. -/
def analyze_central_contracts_revenue (df : ContractsDF) : Except String RevResults :=
  match df.amounts with
  | none => Except.error "KeyError: amount_in_crores_2025"
  | some amts =>
    let rows := df.partners.zip amts
    let total := amts.sum
    let bySource := groupbySum rows
    let pct := bySource.map (fun p => (p.fst, round2 (p.snd / total * 100)))
    Except.ok ⟨total, bySource, pct⟩

/-- `main` (lines 188–206), restricted to the contracts-revenue stage: a load
failure is caught inside `load_processed_data` and reported as `False`, upon
which `main` logs "Analysis failed" and returns normally (`ok none`); when
loading succeeds, `analyze_central_contracts_revenue` is called with no
surrounding `try`/`except`, so an exception it raises propagates uncaught out
of `main` (`Except.error`). -/
def mainRevenueStage (loadOk : Bool) (df : ContractsDF) : Except String (Option RevResults) :=
  if loadOk then (analyze_central_contracts_revenue df).map some
  else Except.ok none

/-! ## pandas `nlargest(n, col)`

`DataFrame.nlargest` returns the `n` rows with the largest value in the given
column, in descending order, ties broken by original row order
(`keep='first'`).  That is a stable descending sort followed by `take n`;
stable insertion sort realises it. -/

def insertDescBy {α : Type} (key : α → ℚ) (a : α) : List α → List α
  | [] => [a]
  | b :: t => if key b < key a then a :: b :: t else b :: insertDescBy key a t

def sortDescBy {α : Type} (key : α → ℚ) : List α → List α
  | [] => []
  | a :: t => insertDescBy key a (sortDescBy key t)

def nlargestBy {α : Type} (n : ℕ) (key : α → ℚ) (l : List α) : List α :=
  (sortDescBy key l).take n

/-! ## CAGR (`IPLAnalyzer.calculate_cagr`)

A row of `advertisers_with_risk` as the CAGR computation sees it: the brand
name, the risk index, and the two revenue cells.  `Option ℚ` models a cell
that may be NaN (`none`); the table-level flags record whether the
`current_revenue` / `projected_revenue_2030` columns exist at all, since
`row.get(col, 1)` returns the default `1` when the column is absent. -/

structure CagrRow where
  brand_name : String
  health_risk_index : ℚ
  current_revenue : Option ℚ
  projected_revenue_2030 : Option ℚ
deriving Repr, DecidableEq

structure AdvTable where
  rows : List CagrRow
  hasCurrentRevenue : Bool
  hasProjectedRevenue : Bool
deriving Repr, DecidableEq

/-- A value recorded in the `cagr_results` dict: either the string sentinel
`"N/A"` or a computed number. -/
inductive CagrResult where
  | na
  | num (x : ℝ)

/-- Python `round(x, 2)` on the real result (ties to even). -/
noncomputable def round2R (x : ℝ) : ℝ :=
  let y := x * 100
  let f := ⌊y⌋
  let r := y - f
  (if r < 1/2 then (f : ℝ) else if 1/2 < r then (f : ℝ) + 1
   else if Even f then (f : ℝ) else (f : ℝ) + 1) / 100

/-- `row.get('current_revenue', 1)`: the cell when the column exists
(possibly NaN), the default `1` when it does not. -/
def rowGetCurrent (t : AdvTable) (r : CagrRow) : Option ℚ :=
  if t.hasCurrentRevenue then r.current_revenue else some 1

/-- `row.get('projected_revenue_2030', 1)`. -/
def rowGetProjected (t : AdvTable) (r : CagrRow) : Option ℚ :=
  if t.hasProjectedRevenue then r.projected_revenue_2030 else some 1

/-- The loop body of `calculate_cagr`: `if current_value > 0 and
future_value > 0` (a NaN comparison is `False`) compute
`round(((future/current) ** (1/years) - 1) * 100, 2)`, else record `"N/A"`. -/
noncomputable def cagrEntry (t : AdvTable) (years : ℕ) (r : CagrRow) : String × CagrResult :=
  match rowGetCurrent t r, rowGetProjected t r with
  | some cv, some fv =>
    if 0 < cv ∧ 0 < fv then
      (r.brand_name,
        CagrResult.num (round2R ((((fv : ℝ) / (cv : ℝ)) ^ ((1 : ℝ) / (years : ℝ)) - 1) * 100)))
    else (r.brand_name, CagrResult.na)
  | _, _ => (r.brand_name, CagrResult.na)

/-- `IPLAnalyzer.calculate_cagr`: iterate the entry computation over
`advertisers_df.nlargest(5, 'health_risk_index')`.  The Python dict
`cagr_results` is modelled as the association list of recorded
`(brand_name, result)` pairs in iteration order. -/
noncomputable def calculate_cagr (t : AdvTable) (years : ℕ) : List (String × CagrResult) :=
  (nlargestBy 5 (fun r => r.health_risk_index) t.rows).map (cagrEntry t years)

/-! ## Celebrity endorsements (`IPLAnalyzer.analyze_celebrity_endorsements`)

A row of `advertisers_with_risk` as this analysis sees it. -/

structure CelebRow where
  brand_name : String
  celebrity_name : String
  health_risk_index : ℚ
deriving Repr, DecidableEq

/-- A row of the aggregated frame
`groupby('celebrity_name').agg(brand_name='count', health_risk_index='mean')`:
the group key, the row count (the `'count'` aggregate of `brand_name`), and
the mean risk of the group. -/
structure CelebGroup where
  celebrity_name : String
  brand_count : ℕ
  health_risk_index : ℚ
deriving Repr, DecidableEq

/-- Insertion sort of group keys in ascending lexicographic order, matching
pandas `groupby(..., sort=True)` (the default). -/
def insertAscStr (k : String) : List String → List String
  | [] => [k]
  | b :: t => if k < b then k :: b :: t else b :: insertAscStr k t

def sortAscStr : List String → List String
  | [] => []
  | k :: t => insertAscStr k (sortAscStr t)

/-- The aggregated groups of the high-risk subset, one per distinct
`celebrity_name` value (keys sorted, as pandas `groupby` sorts them):
`brand_name` count = number of rows in the group, `health_risk_index` =
mean over the group. -/
def celebrityGroups (hi : List CelebRow) : List CelebGroup :=
  (sortAscStr ((hi.map (fun r => r.celebrity_name)).dedup)).map (fun k =>
    let g := hi.filter (fun r => r.celebrity_name = k)
    ⟨k, g.length, listMean (g.map (fun r => r.health_risk_index))⟩)

/-- `IPLAnalyzer.analyze_celebrity_endorsements`: filter
`health_risk_index > 70`, and when the `celebrity_name` column exists, group
by the raw `celebrity_name` value, aggregate count and mean, and return
`nlargest(5, 'brand_name')`; when the column is missing, return an empty
frame. -/
def analyze_celebrity_endorsements (df : List CelebRow) (hasCelebrityCol : Bool) :
    List CelebGroup :=
  if hasCelebrityCol then
    let hi := df.filter (fun r => 70 < r.health_risk_index)
    nlargestBy 5 (fun g => (g.brand_count : ℚ)) (celebrityGroups hi)
  else []

/-! ## Ethics index (`IPLAnalyzer.calculate_advertising_ethics_index`) -/

structure EthicsRow where
  product_type : String
  health_risk_index : ℚ
  compliance_score : ℚ
deriving Repr, DecidableEq

/-- The advertisers table as the ethics index sees it; `hasCompliance`
records whether the optional `compliance_score` column exists (when it does
not, `advertisers_df.get('compliance_score', pd.Series([0]))` yields the
one-element default series `[0]`). -/
structure EthicsTable where
  rows : List EthicsRow
  hasCompliance : Bool
deriving Repr, DecidableEq

/-- `IPLAnalyzer.calculate_advertising_ethics_index`:
`risk_score = 100 - mean(health_risk_index)`,
`diversity_score = len(unique(product_type)) * 10`,
`compliance_score = df.get('compliance_score', pd.Series([0])).mean()`,
`aei = risk_score * 0.4 + diversity_score * 0.3 + compliance_score * 0.3`
(the returned value; the rounded copy goes only to the results dict). -/
def calculate_advertising_ethics_index (t : EthicsTable) : ℚ :=
  let risk_score := 100 - listMean (t.rows.map (fun r => r.health_risk_index))
  let diversity_score := ((t.rows.map (fun r => r.product_type)).dedup.length : ℚ) * 10
  let compliance_score :=
    if t.hasCompliance then listMean (t.rows.map (fun r => r.compliance_score))
    else listMean [0]
  risk_score * 0.4 + diversity_score * 0.3 + compliance_score * 0.3

/-! ## Population impact (`IPLAnalyzer.estimate_population_impact`)

The `estimated_user_population` column of the demography table.  As loaded
from CSV it is an object/string column (`strings`; `none` = NaN cell); after
`pd.to_numeric` it is a float column (`numbers`).  The `.str` accessor is
only legal on a string column: applying it to a numeric column raises
`AttributeError`, modelled as `Except.error`. -/

inductive PopColumn where
  | strings (cells : List (Option String))
  | numbers (cells : List (Option ℚ))
deriving Repr, DecidableEq

/-- The slice of `IPLAnalyzer.self.data` that `estimate_population_impact`
touches: the demography table's population column, and the
`health_risk_index` column of `advertisers_with_risk`. -/
structure AnalyzerState where
  demography_population : PopColumn
  advertisers_risk : List ℚ
deriving Repr, DecidableEq

structure ImpactMetrics where
  total_affected_population : ℚ
  high_risk_brands_count : ℕ
  average_risk_score : Option ℚ
deriving Repr, DecidableEq

/-- `pd.to_numeric(..., errors='coerce')` on one comma-stripped cell:
non-negative integer literals parse, anything else coerces to NaN.  (The
population figures in the source data are thousands-separated integers.) -/
def parsePopulation (s : String) : Option ℚ :=
  if s.data ≠ [] ∧ s.data.all Char.isDigit then
    some ((s.data.foldl (fun acc c => 10 * acc + (c.toNat - Char.toNat '0')) 0 : ℕ) : ℚ)
  else none

/-- `Series.str.replace(',', '')` on one cell (NaN stays NaN): every comma
is removed from the string. -/
def stripCommas (c : Option String) : Option String :=
  c.map (fun s => String.mk (s.data.filter (fun ch => ch ≠ ',')))

/-- `Series.sum()`: NaN cells are skipped. -/
def sumSome (l : List (Option ℚ)) : ℚ :=
  l.foldr (fun o acc => match o with | some q => q + acc | none => acc) 0

/-- `IPLAnalyzer.estimate_population_impact`.  `demography_df` aliases
`self.data['demography']`, so the column assignment
`demography_df['estimated_user_population'] = pd.to_numeric(...str.replace(...))`
writes the coerced column back into the shared registry: the returned state
is the mutated registry.  On a column that is already numeric (the state
after a first call) the `.str` accessor raises, modelled as `Except.error`. -/
def estimate_population_impact (s : AnalyzerState) :
    Except String (AnalyzerState × ImpactMetrics) :=
  match s.demography_population with
  | PopColumn.strings cells =>
    let coerced := cells.map (fun c => (stripCommas c).bind parsePopulation)
    let total_users := sumSome coerced
    let high_risk := s.advertisers_risk.filter (fun x => 70 < x)
    Except.ok (⟨PopColumn.numbers coerced, s.advertisers_risk⟩,
      ⟨total_users * 0.15, high_risk.length,
        if high_risk.isEmpty then none else some (listMean high_risk)⟩)
  | PopColumn.numbers _ =>
    Except.error "AttributeError: Can only use .str accessor with string values!"

/-! ## Statement abbreviations -/

/-- The contents of the two risk lookup tables in
`calculate_health_risk_index` and the `.get` defaults that
`_calculate_risk_score` uses for descriptors outside them. -/
def riskLookupTableFacts : Prop :=
  productTypeRisk "pan_masala" = 0.8 ∧ productTypeRisk "betting_app" = 0.7 ∧
  productTypeRisk "alcohol" = 0.6 ∧ productTypeRisk "tobacco" = 0.9 ∧
  productTypeRisk "other" = 0.2 ∧
  adFrequencyRisk "high" = 0.8 ∧ adFrequencyRisk "medium" = 0.5 ∧
  adFrequencyRisk "low" = 0.2 ∧
  (∀ s : String, s ∉ ["pan_masala", "betting_app", "alcohol", "tobacco", "other"] →
    productTypeRisk s = 0.2) ∧
  (∀ s : String, s ∉ ["high", "medium", "low"] → adFrequencyRisk s = 0.5)

/-- A revenue figure that triggers the `else` branch of `calculate_cagr`'s
guard while its column exists: the column is present and the cell is NaN or
non-positive. -/
def presentAndBad (has : Bool) (v : Option ℚ) : Prop :=
  has = true ∧ (v = none ∨ ∃ x, v = some x ∧ x ≤ 0)

/-! ## Helper lemmas -/

theorem productTypeRisk_cases (s : String) :
    productTypeRisk s = 0.9 ∨ productTypeRisk s = 0.8 ∨ productTypeRisk s = 0.7 ∨
      productTypeRisk s = 0.6 ∨ productTypeRisk s = 0.2 := by
  unfold productTypeRisk
  split_ifs <;> norm_num

theorem adFrequencyRisk_cases (s : String) :
    adFrequencyRisk s = 0.8 ∨ adFrequencyRisk s = 0.5 ∨ adFrequencyRisk s = 0.2 := by
  unfold adFrequencyRisk
  split_ifs <;> norm_num

theorem riskLookupTableFacts_holds : riskLookupTableFacts := by
  unfold riskLookupTableFacts
  refine ⟨by simp [productTypeRisk], by simp [productTypeRisk], by simp [productTypeRisk],
    by simp [productTypeRisk], by simp [productTypeRisk], by simp [adFrequencyRisk],
    by simp [adFrequencyRisk], by simp [adFrequencyRisk], ?_, ?_⟩
  · intro s hs
    simp only [List.mem_cons, List.not_mem_nil, or_false] at hs
    push_neg at hs
    obtain ⟨h1, h2, h3, h4, h5⟩ := hs
    simp [productTypeRisk, h1, h2, h3, h4, h5]
  · intro s hs
    simp only [List.mem_cons, List.not_mem_nil, or_false] at hs
    push_neg at hs
    obtain ⟨h1, h2, h3⟩ := hs
    simp [adFrequencyRisk, h1, h2, h3]

theorem calculateRiskScore_bounds (row : AdRow) :
    20 ≤ calculateRiskScore row ∧ calculateRiskScore row ≤ 87 := by
  have hp := productTypeRisk_cases row.product_type
  have hf := adFrequencyRisk_cases row.ad_frequency
  unfold calculateRiskScore
  rcases hp with h | h | h | h | h <;> rcases hf with h2 | h2 | h2 <;>
    rw [h, h2] <;> norm_num

/-! ## Claim theorems -/

/-- Claim C1 (counterexample): a row whose qualitative risk descriptor is
"High" receives health risk index 20, not the 90 the descriptor lookup table
of the claim would give — the code scores product type and ad frequency, not
the descriptor. -/
theorem risk_descriptor_lookup_cex_C1 :
    calculate_health_risk_index [⟨"A", "other", "low", "High"⟩] =
      [(⟨"A", "other", "low", "High"⟩, (20 : ℚ))] ∧ (20 : ℚ) ≠ 90 := by
  constructor
  · simp [calculate_health_risk_index, calculateRiskScore, productTypeRisk, adFrequencyRisk]
    norm_num
  · norm_num

/-- Claim C1 (amended): every computed health risk index equals
`(product_factor * 0.7 + frequency_factor * 0.3) * 100`, where the factors
come from the fixed product-type table (default 0.2) and ad-frequency table
(default 0.5); the risk descriptor plays no role. -/
theorem health_risk_formula_C1 (df : List AdRow) (pr : AdRow × ℚ)
    (h : pr ∈ calculate_health_risk_index df) :
    pr.2 = (productTypeRisk pr.1.product_type * 0.7 +
      adFrequencyRisk pr.1.ad_frequency * 0.3) * 100 ∧ riskLookupTableFacts := by
  constructor
  · obtain ⟨r, _, rfl⟩ := List.mem_map.mp h
    rfl
  · exact riskLookupTableFacts_holds

theorem health_risk_formula_C1_witness :
    ((⟨"A", "other", "low", "High"⟩, (20 : ℚ)) ∈
      calculate_health_risk_index [⟨"A", "other", "low", "High"⟩]) ∧
    ((20 : ℚ) = (productTypeRisk "other" * 0.7 + adFrequencyRisk "low" * 0.3) * 100 ∧
      riskLookupTableFacts) := by
  have hm : ((⟨"A", "other", "low", "High"⟩, (20 : ℚ)) ∈
      calculate_health_risk_index [⟨"A", "other", "low", "High"⟩]) := by
    simp [calculate_health_risk_index, calculateRiskScore, productTypeRisk, adFrequencyRisk]
    norm_num
  exact ⟨hm, health_risk_formula_C1 _ _ hm⟩

/-- Claim C8 (counterexample): two rows with the same risk descriptor "High"
receive different indices (87 and 20), so the index is not a function of the
descriptor. -/
theorem risk_purity_descriptor_cex_C8 :
    calculateRiskScore ⟨"A", "tobacco", "high", "High"⟩ = 87 ∧
    calculateRiskScore ⟨"B", "other", "low", "High"⟩ = 20 ∧ (87 : ℚ) ≠ 20 := by
  refine ⟨?_, ?_, by norm_num⟩ <;>
    · simp [calculateRiskScore, productTypeRisk, adFrequencyRisk]
      norm_num

/-- Claim C8 (amended): every computed health risk index lies in `[0, 100]`,
and the index is a pure function of the `(product_type, ad_frequency)` pair:
rows agreeing on those two fields receive the same index, and the computation
is independent of row order (permutation of the table permutes the result). -/
theorem health_risk_invariant_C8 (df : List AdRow) (pr : AdRow × ℚ)
    (h : pr ∈ calculate_health_risk_index df)
    (r r' : AdRow) (hp : r.product_type = r'.product_type)
    (hf : r.ad_frequency = r'.ad_frequency) :
    (0 ≤ pr.2 ∧ pr.2 ≤ 100) ∧
    calculateRiskScore r = calculateRiskScore r' ∧
    (∀ df₁ df₂ : List AdRow, df₁.Perm df₂ →
      (calculate_health_risk_index df₁).Perm (calculate_health_risk_index df₂)) := by
  refine ⟨?_, ?_, ?_⟩
  · obtain ⟨r₀, _, rfl⟩ := List.mem_map.mp h
    have hb := calculateRiskScore_bounds r₀
    constructor <;> [linarith [hb.1]; linarith [hb.2]]
  · unfold calculateRiskScore
    rw [hp, hf]
  · intro df₁ df₂ hperm
    exact hperm.map _

theorem health_risk_invariant_C8_witness :
    ((⟨"W", "alcohol", "medium", "Low"⟩, (57 : ℚ)) ∈
      calculate_health_risk_index [⟨"W", "alcohol", "medium", "Low"⟩]) ∧
    ((⟨"P", "tobacco", "high", "x"⟩ : AdRow).product_type =
      (⟨"Q", "tobacco", "high", "y"⟩ : AdRow).product_type) ∧
    ((⟨"P", "tobacco", "high", "x"⟩ : AdRow).ad_frequency =
      (⟨"Q", "tobacco", "high", "y"⟩ : AdRow).ad_frequency) ∧
    ((0 ≤ (57 : ℚ) ∧ (57 : ℚ) ≤ 100) ∧
      calculateRiskScore ⟨"P", "tobacco", "high", "x"⟩ =
        calculateRiskScore ⟨"Q", "tobacco", "high", "y"⟩ ∧
      (∀ df₁ df₂ : List AdRow, df₁.Perm df₂ →
        (calculate_health_risk_index df₁).Perm (calculate_health_risk_index df₂))) := by
  have hm : ((⟨"W", "alcohol", "medium", "Low"⟩, (57 : ℚ)) ∈
      calculate_health_risk_index [⟨"W", "alcohol", "medium", "Low"⟩]) := by
    simp [calculate_health_risk_index, calculateRiskScore, productTypeRisk, adFrequencyRisk]
    norm_num
  exact ⟨hm, rfl, rfl, health_risk_invariant_C8 _ _ hm _ _ rfl rfl⟩

/-- Claim C9: every risk score lies in `[20, 87]`: the product factor is one
of `{0.9, 0.8, 0.7, 0.6, 0.2}` (default 0.2) and the frequency factor one of
`{0.8, 0.5, 0.2}` (default 0.5), so the weighted sum times 100 is bounded by
20 and 87; 0 and 100 are unreachable, and only some factor combinations
exceed the high-risk threshold 70. -/
theorem risk_score_range_C9 :
    (∀ row : AdRow, 20 ≤ calculateRiskScore row ∧ calculateRiskScore row ≤ 87) ∧
    (∀ s : String, productTypeRisk s = 0.9 ∨ productTypeRisk s = 0.8 ∨
      productTypeRisk s = 0.7 ∨ productTypeRisk s = 0.6 ∨ productTypeRisk s = 0.2) ∧
    (∀ s : String, adFrequencyRisk s = 0.8 ∨ adFrequencyRisk s = 0.5 ∨
      adFrequencyRisk s = 0.2) ∧
    (∀ row : AdRow, calculateRiskScore row ≠ 0 ∧ calculateRiskScore row ≠ 100) ∧
    (∃ row : AdRow, 70 < calculateRiskScore row) ∧
    (∃ row : AdRow, calculateRiskScore row ≤ 70) := by
  refine ⟨calculateRiskScore_bounds, productTypeRisk_cases, adFrequencyRisk_cases, ?_, ?_, ?_⟩
  · intro row
    have hb := calculateRiskScore_bounds row
    constructor <;> intro hEq <;> rw [hEq] at hb <;> [exact absurd hb.1 (by norm_num);
      exact absurd hb.2 (by norm_num)]
  · refine ⟨⟨"A", "tobacco", "high", ""⟩, ?_⟩
    simp [calculateRiskScore, productTypeRisk, adFrequencyRisk]
    norm_num
  · refine ⟨⟨"B", "other", "low", ""⟩, ?_⟩
    simp [calculateRiskScore, productTypeRisk, adFrequencyRisk]
    norm_num

/-- Claim C4: the ethics index equals
`0.4*(100 - mean risk) + 0.3*(10 * distinct product types) + 0.3*(compliance term)`,
where the compliance term is the column mean when `compliance_score` exists
and 0 (the mean of the default series `[0]`) when it is absent; absence does
not fail the computation. -/
theorem ethics_index_formula_C4 (t : EthicsTable) (hne : t.rows ≠ []) :
    calculate_advertising_ethics_index t =
      0.4 * (100 - listMean (t.rows.map (fun r => r.health_risk_index))) +
      0.3 * (10 * ((t.rows.map (fun r => r.product_type)).dedup.length : ℚ)) +
      0.3 * (if t.hasCompliance then listMean (t.rows.map (fun r => r.compliance_score))
        else 0) := by
  unfold calculate_advertising_ethics_index
  cases h : t.hasCompliance <;> simp [h, listMean] <;> ring

theorem ethics_index_formula_C4_witness :
    ([(⟨"pan_masala", 90, 0⟩ : EthicsRow), ⟨"other", 20, 0⟩] ≠ []) ∧
    calculate_advertising_ethics_index ⟨[⟨"pan_masala", 90, 0⟩, ⟨"other", 20, 0⟩], false⟩ =
      0.4 * (100 - listMean (([(⟨"pan_masala", 90, 0⟩ : EthicsRow), ⟨"other", 20, 0⟩].map
        (fun r => r.health_risk_index)))) +
      0.3 * (10 * ((([(⟨"pan_masala", 90, 0⟩ : EthicsRow), ⟨"other", 20, 0⟩].map
        (fun r => r.product_type)).dedup.length : ℚ)) ) +
      0.3 * (if (false : Bool) then listMean (([(⟨"pan_masala", 90, 0⟩ : EthicsRow),
        ⟨"other", 20, 0⟩].map (fun r => r.compliance_score))) else 0) := by
  exact ⟨by simp, ethics_index_formula_C4 ⟨[⟨"pan_masala", 90, 0⟩, ⟨"other", 20, 0⟩], false⟩
    (by simp)⟩

/-! ## Helper lemmas: association-list lookup and group sums -/

theorem lookup_map_key (ks : List String) (f : String → ℚ) (k : String) (h : k ∈ ks) :
    (ks.map (fun a => (a, f a))).lookup k = some (f k) := by
  induction ks with
  | nil => simp at h
  | cons b t ih =>
    rcases List.mem_cons.mp h with hb | ht
    · subst hb
      simp [List.lookup]
    · by_cases hb : k = b
      · subst hb
        simp [List.lookup]
      · simpa [List.lookup, beq_false_of_ne hb] using ih ht

theorem groupSum_cons (p : String × ℚ) (t : List (String × ℚ)) (k : String) :
    groupSum (p :: t) k = (if p.1 = k then p.2 else 0) + groupSum t k := by
  unfold groupSum
  by_cases h : p.1 = k <;> simp [List.filter_cons, h]

theorem groupSum_eq_zero (t : List (String × ℚ)) (k : String)
    (h : k ∉ t.map Prod.fst) : groupSum t k = 0 := by
  unfold groupSum
  have hf : t.filter (fun p => p.fst = k) = [] := by
    rw [List.filter_eq_nil_iff]
    intro a ha
    simp only [decide_eq_true_eq]
    intro hk
    exact h (List.mem_map.mpr ⟨a, ha, hk⟩)
  simp [hf]

theorem sum_fiber (l : List (String × ℚ)) :
    ∑ k ∈ (l.map Prod.fst).toFinset, groupSum l k = (l.map Prod.snd).sum := by
  induction l with
  | nil => simp [groupSum]
  | cons p t ih =>
    have hcong : ∀ k ∈ insert p.1 ((t.map Prod.fst).toFinset),
        groupSum (p :: t) k = (if p.1 = k then p.2 else 0) + groupSum t k :=
      fun k _ => groupSum_cons p t k
    simp only [List.map_cons, List.toFinset_cons]
    rw [Finset.sum_congr rfl hcong, Finset.sum_add_distrib, Finset.sum_ite_eq,
      if_pos (Finset.mem_insert_self _ _)]
    by_cases hp : p.1 ∈ (t.map Prod.fst).toFinset
    · rw [Finset.insert_eq_self.mpr hp, ih, List.sum_cons]
    · rw [Finset.sum_insert hp, groupSum_eq_zero t p.1 (by simpa using hp), zero_add, ih,
        List.sum_cons]

theorem sum_groupbySum (l : List (String × ℚ)) :
    ((groupbySum l).map Prod.snd).sum = (l.map Prod.snd).sum := by
  unfold groupbySum uniqueKeys
  rw [List.map_map]
  have h1 : (Prod.snd ∘ fun k => (k, groupSum l k)) = fun k => groupSum l k := rfl
  have h2 : ((l.map Prod.fst).dedup).toFinset = (l.map Prod.fst).toFinset :=
    List.toFinset.ext (fun _ => List.mem_dedup)
  rw [h1, ← List.sum_toFinset _ (List.nodup_dedup _), h2]
  exact sum_fiber l

/-! ## Helper lemmas: rounding error bounds -/

theorem abs_roundHalfEven_sub (x : ℚ) : |(roundHalfEven x : ℚ) - x| ≤ 1/2 := by
  have h0 : (⌊x⌋ : ℚ) ≤ x := Int.floor_le x
  have h1 : x < ⌊x⌋ + 1 := Int.lt_floor_add_one x
  unfold roundHalfEven
  split_ifs with hc1 hc2 <;>
    · push_cast
      rw [abs_le]
      constructor <;> linarith

theorem abs_round2_sub (x : ℚ) : |round2 x - x| ≤ 1/200 := by
  have h := abs_roundHalfEven_sub (x * 100)
  unfold round2
  rw [show (roundHalfEven (x * 100) : ℚ) / 100 - x
      = ((roundHalfEven (x * 100) : ℚ) - x * 100) / 100 by ring, abs_div]
  have h100 : |(100 : ℚ)| = 100 := by norm_num
  rw [h100]
  linarith

theorem sum_map_sub_abs_le {α : Type} (ks : List α) (f g : α → ℚ) (c : ℚ)
    (h : ∀ k ∈ ks, |f k - g k| ≤ c) :
    |(ks.map f).sum - (ks.map g).sum| ≤ (ks.length : ℚ) * c := by
  induction ks with
  | nil => simp
  | cons a t ih =>
    simp only [List.map_cons, List.sum_cons, List.length_cons]
    have h1 := h a (List.mem_cons_self a t)
    have h2 := ih (fun k hk => h k (List.mem_cons_of_mem a hk))
    have h3 : f a + (t.map f).sum - (g a + (t.map g).sum)
        = (f a - g a) + ((t.map f).sum - (t.map g).sum) := by ring
    rw [h3]
    calc |(f a - g a) + ((t.map f).sum - (t.map g).sum)|
        ≤ |f a - g a| + |(t.map f).sum - (t.map g).sum| := abs_add _ _
      _ ≤ c + (t.length : ℚ) * c := add_le_add h1 h2
      _ = ((t.length + 1 : ℕ) : ℚ) * c := by push_cast; ring

/-! ## Revenue claims -/

/-- Claim C5: with the monetary column present, the analysis returns total =
sum of the amount column, by-source = amount summed per distinct partner, and
percentage = share over total times 100 rounded to 2 decimals (dict entries
looked up by partner name). -/
theorem revenue_analysis_C5 (partners : List String) (amts : List ℚ)
    (hlen : partners.length = amts.length) :
    ∃ res : RevResults,
      analyze_central_contracts_revenue ⟨partners, some amts⟩ = Except.ok res ∧
      res.total_revenue = amts.sum ∧
      (∀ k ∈ uniqueKeys (partners.zip amts),
        res.revenue_by_source.lookup k = some (groupSum (partners.zip amts) k) ∧
        res.revenue_percentage.lookup k =
          some (round2 (groupSum (partners.zip amts) k / amts.sum * 100))) := by
  refine ⟨_, rfl, rfl, ?_⟩
  intro k hk
  refine ⟨lookup_map_key _ _ _ hk, ?_⟩
  show ((groupbySum (partners.zip amts)).map
      (fun p => (p.fst, round2 (p.snd / amts.sum * 100)))).lookup k = _
  have h1 : (groupbySum (partners.zip amts)).map
      (fun p => (p.fst, round2 (p.snd / amts.sum * 100)))
      = (uniqueKeys (partners.zip amts)).map
          (fun a => (a, round2 (groupSum (partners.zip amts) a / amts.sum * 100))) := by
    unfold groupbySum
    rw [List.map_map]
    rfl
  rw [h1]
  exact lookup_map_key _ _ _ hk

theorem revenue_analysis_C5_witness :
    (["X", "Y"] : List String).length = ([100, 300] : List ℚ).length ∧
    (∃ res : RevResults,
      analyze_central_contracts_revenue ⟨["X", "Y"], some [100, 300]⟩ = Except.ok res ∧
      res.total_revenue = ([100, 300] : List ℚ).sum ∧
      (∀ k ∈ uniqueKeys ((["X", "Y"] : List String).zip ([100, 300] : List ℚ)),
        res.revenue_by_source.lookup k =
          some (groupSum ((["X", "Y"] : List String).zip ([100, 300] : List ℚ)) k) ∧
        res.revenue_percentage.lookup k =
          some (round2 (groupSum ((["X", "Y"] : List String).zip ([100, 300] : List ℚ)) k /
            ([100, 300] : List ℚ).sum * 100)))) :=
  ⟨rfl, revenue_analysis_C5 ["X", "Y"] [100, 300] rfl⟩

/-- Claim C6 (counterexample): with the amount column absent, the analysis
raises a KeyError that `main` does not catch — the run terminates with an
uncaught exception instead of a logged boolean failure or a placeholder. -/
theorem revenue_missing_column_cex_C6 :
    mainRevenueStage true ⟨["X"], none⟩ = Except.error "KeyError: amount_in_crores_2025" ∧
    ¬ ∃ r : Option RevResults, mainRevenueStage true ⟨["X"], none⟩ = Except.ok r := by
  refine ⟨rfl, ?_⟩
  rintro ⟨r, hr⟩
  simp [mainRevenueStage, analyze_central_contracts_revenue, Except.map] at hr

/-- Claim C6 (amended): when the monetary column is absent the column access
raises a KeyError; the analysis never reports a zero total, but the exception
propagates uncaught through `main` (process crash) rather than being surfaced
as a logged message with a boolean return — only load failures are caught. -/
theorem revenue_missing_column_C6 (partners : List String) :
    analyze_central_contracts_revenue ⟨partners, none⟩ =
      Except.error "KeyError: amount_in_crores_2025" ∧
    mainRevenueStage true ⟨partners, none⟩ =
      Except.error "KeyError: amount_in_crores_2025" ∧
    (∀ df : ContractsDF, mainRevenueStage false df = Except.ok none) :=
  ⟨rfl, rfl, fun _ => rfl⟩

/-- Claim C7: for a well-formed contracts table with positive total revenue,
the rounded percentage shares sum to 100 up to the per-share rounding epsilon
of 1/200 (half of the last retained decimal place) per group. -/
theorem revenue_percentage_sum_C7 (partners : List String) (amts : List ℚ)
    (hlen : partners.length = amts.length) (hpos : 0 < amts.sum) (res : RevResults)
    (hres : analyze_central_contracts_revenue ⟨partners, some amts⟩ = Except.ok res) :
    |(res.revenue_percentage.map Prod.snd).sum - 100| ≤
      (res.revenue_percentage.length : ℚ) * (1/200) := by
  have hres' : res = ⟨amts.sum, groupbySum (partners.zip amts),
      (groupbySum (partners.zip amts)).map
        (fun p => (p.fst, round2 (p.snd / amts.sum * 100)))⟩ := by
    have h := hres
    unfold analyze_central_contracts_revenue at h
    simp only [Except.ok.injEq] at h
    exact h.symm
  subst hres'
  have hmapsnd : (((groupbySum (partners.zip amts)).map
      (fun p => (p.fst, round2 (p.snd / amts.sum * 100)))).map Prod.snd)
      = (uniqueKeys (partners.zip amts)).map
          (fun k => round2 (groupSum (partners.zip amts) k / amts.sum * 100)) := by
    unfold groupbySum
    rw [List.map_map, List.map_map]
    rfl
  have hlength : (((groupbySum (partners.zip amts)).map
      (fun p => (p.fst, round2 (p.snd / amts.sum * 100)))).length)
      = (uniqueKeys (partners.zip amts)).length := by
    unfold groupbySum
    rw [List.length_map, List.length_map]
  have hdev := sum_map_sub_abs_le (uniqueKeys (partners.zip amts))
    (fun k => round2 (groupSum (partners.zip amts) k / amts.sum * 100))
    (fun k => groupSum (partners.zip amts) k / amts.sum * 100) (1/200)
    (fun k _ => abs_round2_sub _)
  have hsum : ((uniqueKeys (partners.zip amts)).map
      (fun k => groupSum (partners.zip amts) k / amts.sum * 100)).sum = 100 := by
    have h1 : (uniqueKeys (partners.zip amts)).map
        (fun k => groupSum (partners.zip amts) k / amts.sum * 100)
        = (uniqueKeys (partners.zip amts)).map
            (fun k => groupSum (partners.zip amts) k * (100 / amts.sum)) :=
      List.map_congr_left (fun a _ => by ring)
    rw [h1, List.sum_map_mul_right]
    have h2 : ((uniqueKeys (partners.zip amts)).map
        (fun k => groupSum (partners.zip amts) k)).sum = amts.sum := by
      have h3 := sum_groupbySum (partners.zip amts)
      unfold groupbySum at h3
      rw [List.map_map] at h3
      rw [show (Prod.snd ∘ fun k => (k, groupSum (partners.zip amts) k))
          = fun k => groupSum (partners.zip amts) k from rfl] at h3
      rw [h3, List.map_snd_zip partners amts hlen.symm.le]
    rw [h2]
    field_simp
  rw [hsum] at hdev
  show |(((groupbySum (partners.zip amts)).map
      (fun p => (p.fst, round2 (p.snd / amts.sum * 100)))).map Prod.snd).sum - 100| ≤ _
  rw [hmapsnd, hlength]
  exact hdev

theorem revenue_percentage_sum_C7_witness :
    (["Z"] : List String).length = ([4] : List ℚ).length ∧ (0 : ℚ) < ([4] : List ℚ).sum ∧
    analyze_central_contracts_revenue ⟨["Z"], some [4]⟩ =
      Except.ok ⟨4, [("Z", 4)], [("Z", 100)]⟩ ∧
    |(((⟨4, [("Z", 4)], [("Z", 100)]⟩ : RevResults).revenue_percentage.map Prod.snd).sum - 100)| ≤
      (((⟨4, [("Z", 4)], [("Z", 100)]⟩ : RevResults).revenue_percentage.length : ℚ)) * (1/200) := by
  have hres : analyze_central_contracts_revenue ⟨["Z"], some [4]⟩ =
      Except.ok ⟨4, [("Z", 4)], [("Z", 100)]⟩ := by
    simp [analyze_central_contracts_revenue, groupbySum, uniqueKeys, groupSum, round2,
      roundHalfEven]
    norm_num [Int.fract]
  exact ⟨rfl, by norm_num, hres,
    revenue_percentage_sum_C7 ["Z"] [4] rfl (by norm_num) _ hres⟩

/-! ## CAGR claims -/

/-- Claim C2 (counterexample): with both revenue columns absent from the
table, `row.get(col, 1)` substitutes 1 for both figures and the guard
`current > 0 and future > 0` passes, so the recorded result is the computed
number `((1/1) ** (1/5) - 1) * 100 = 0.0` — not the "N/A" sentinel. -/
theorem cagr_absent_columns_cex_C2 :
    calculate_cagr ⟨[⟨"B", 80, none, none⟩], false, false⟩ 5 = [("B", CagrResult.num 0)] ∧
    CagrResult.num 0 ≠ CagrResult.na := by
  constructor
  · norm_num [calculate_cagr, nlargestBy, sortDescBy, insertDescBy, cagrEntry, rowGetCurrent,
      rowGetProjected, round2R, Real.one_rpow]
  · intro h
    exact CagrResult.noConfusion h

/-- Claim C2 (amended): for every advertiser among the top 5 by risk, if a
revenue column that is present holds a missing (NaN) or non-positive figure,
the result recorded for that brand is the "N/A" sentinel; an absent revenue
column, however, defaults to 1 and does not by itself produce the sentinel. -/
theorem cagr_sentinel_C2 (t : AdvTable) (years : ℕ) (r : CagrRow)
    (hr : r ∈ nlargestBy 5 (fun row => row.health_risk_index) t.rows)
    (hbad : presentAndBad t.hasCurrentRevenue r.current_revenue ∨
      presentAndBad t.hasProjectedRevenue r.projected_revenue_2030) :
    (r.brand_name, CagrResult.na) ∈ calculate_cagr t years := by
  have hentry : cagrEntry t years r = (r.brand_name, CagrResult.na) := by
    unfold cagrEntry rowGetCurrent rowGetProjected
    rcases hbad with ⟨hhas, hv⟩ | ⟨hhas, hv⟩
    · rw [hhas]
      rcases hv with hnone | ⟨x, hx, hxle⟩
      · rw [hnone]
        simp
      · rw [hx]
        cases hp : (if t.hasProjectedRevenue then r.projected_revenue_2030 else some 1) with
        | none => simp
        | some fv =>
          have hguard : ¬(0 < x ∧ 0 < fv) := fun hc => absurd hc.1 (not_lt.mpr hxle)
          simp [hguard]
    · rw [hhas]
      cases hc : (if t.hasCurrentRevenue then r.current_revenue else some 1) with
      | none => simp
      | some cv =>
        rcases hv with hnone | ⟨x, hx, hxle⟩
        · rw [hnone]
          simp
        · rw [hx]
          have hguard : ¬(0 < cv ∧ 0 < x) := fun hcon => absurd hcon.2 (not_lt.mpr hxle)
          simp [hguard]
  unfold calculate_cagr
  rw [← hentry]
  exact List.mem_map_of_mem _ hr

theorem cagr_sentinel_C2_witness :
    ((⟨"B", 80, some 0, some 5⟩ : CagrRow) ∈ nlargestBy 5
      (fun row => row.health_risk_index) [(⟨"B", 80, some 0, some 5⟩ : CagrRow)]) ∧
    (presentAndBad true (some 0) ∨ presentAndBad true (some 5)) ∧
    ("B", CagrResult.na) ∈ calculate_cagr ⟨[⟨"B", 80, some 0, some 5⟩], true, true⟩ 5 := by
  have hr : (⟨"B", 80, some 0, some 5⟩ : CagrRow) ∈ nlargestBy 5
      (fun row => row.health_risk_index) [(⟨"B", 80, some 0, some 5⟩ : CagrRow)] := by
    simp [nlargestBy, sortDescBy, insertDescBy]
  have hbad : presentAndBad true (some (0 : ℚ)) ∨ presentAndBad true (some (5 : ℚ)) :=
    Or.inl ⟨rfl, Or.inr ⟨0, rfl, le_refl 0⟩⟩
  exact ⟨hr, hbad, cagr_sentinel_C2 ⟨[⟨"B", 80, some 0, some 5⟩], true, true⟩ 5 _ hr hbad⟩

/-! ## Celebrity endorsement claims -/

theorem mem_insertAscStr (a k : String) (l : List String) :
    k ∈ insertAscStr a l ↔ k = a ∨ k ∈ l := by
  induction l with
  | nil => simp [insertAscStr]
  | cons b t ih =>
    unfold insertAscStr
    split_ifs with h
    · simp [List.mem_cons]
    · simp only [List.mem_cons, ih]
      tauto

theorem mem_sortAscStr (k : String) (l : List String) : k ∈ sortAscStr l ↔ k ∈ l := by
  induction l with
  | nil => simp [sortAscStr]
  | cons b t ih => simp [sortAscStr, mem_insertAscStr, ih]

/-- Claim C3 (counterexample): a high-risk row whose celebrity field is
"Alice, Bob" yields a single group keyed by the raw string (no comma split,
one row, not two), and a field equal to the literal "multiple" yields one
group rather than being excluded. -/
theorem celebrity_split_cex_C3 :
    analyze_celebrity_endorsements [⟨"BrandA", "Alice, Bob", 80⟩] true =
      [⟨"Alice, Bob", 1, 80⟩] ∧
    (analyze_celebrity_endorsements [⟨"BrandA", "Alice, Bob", 80⟩] true).map
      (fun g => g.celebrity_name) ≠ ["Alice", "Bob"] ∧
    analyze_celebrity_endorsements [⟨"BrandB", "multiple", 80⟩] true =
      [⟨"multiple", 1, 80⟩] := by
  have h1 : analyze_celebrity_endorsements [⟨"BrandA", "Alice, Bob", 80⟩] true =
      [⟨"Alice, Bob", 1, 80⟩] := by
    norm_num [analyze_celebrity_endorsements, celebrityGroups, sortAscStr, insertAscStr,
      listMean, nlargestBy, sortDescBy, insertDescBy]
  have h2 : analyze_celebrity_endorsements [⟨"BrandB", "multiple", 80⟩] true =
      [⟨"multiple", 1, 80⟩] := by
    norm_num [analyze_celebrity_endorsements, celebrityGroups, sortAscStr, insertAscStr,
      listMean, nlargestBy, sortDescBy, insertDescBy]
  refine ⟨h1, ?_, h2⟩
  rw [h1]
  simp

/-- Claim C3 (amended): within the high-risk subset the ranking groups rows
by the raw `celebrity_name` field value — no comma splitting, no per-name
trimming, no exclusion of the literal "multiple" — each distinct raw value
contributes one group counting the rows that carry exactly that value and
averaging their risk, and the analysis returns the top 5 groups by that row
count. -/
theorem celebrity_grouping_C3 (df : List CelebRow) (k : String)
    (hk : k ∈ ((df.filter (fun r => 70 < r.health_risk_index)).map
      (fun r => r.celebrity_name)).dedup) :
    (⟨k, ((df.filter (fun r => 70 < r.health_risk_index)).filter
        (fun r => r.celebrity_name = k)).length,
      listMean (((df.filter (fun r => 70 < r.health_risk_index)).filter
        (fun r => r.celebrity_name = k)).map (fun r => r.health_risk_index))⟩ : CelebGroup)
      ∈ celebrityGroups (df.filter (fun r => 70 < r.health_risk_index)) ∧
    analyze_celebrity_endorsements df true =
      nlargestBy 5 (fun g => (g.brand_count : ℚ))
        (celebrityGroups (df.filter (fun r => 70 < r.health_risk_index))) := by
  constructor
  · unfold celebrityGroups
    exact List.mem_map.mpr ⟨k, (mem_sortAscStr _ _).mpr hk, rfl⟩
  · rfl

theorem celebrity_grouping_C3_witness :
    ("Carol" ∈ ((([(⟨"BrandC", "Carol", 90⟩ : CelebRow)]).filter
      (fun r => 70 < r.health_risk_index)).map (fun r => r.celebrity_name)).dedup) ∧
    ((⟨"Carol", ((([(⟨"BrandC", "Carol", 90⟩ : CelebRow)]).filter
        (fun r => 70 < r.health_risk_index)).filter
        (fun r => r.celebrity_name = "Carol")).length,
      listMean (((([(⟨"BrandC", "Carol", 90⟩ : CelebRow)]).filter
        (fun r => 70 < r.health_risk_index)).filter
        (fun r => r.celebrity_name = "Carol")).map (fun r => r.health_risk_index))⟩ : CelebGroup)
      ∈ celebrityGroups (([(⟨"BrandC", "Carol", 90⟩ : CelebRow)]).filter
        (fun r => 70 < r.health_risk_index)) ∧
    analyze_celebrity_endorsements [(⟨"BrandC", "Carol", 90⟩ : CelebRow)] true =
      nlargestBy 5 (fun g => (g.brand_count : ℚ))
        (celebrityGroups (([(⟨"BrandC", "Carol", 90⟩ : CelebRow)]).filter
          (fun r => 70 < r.health_risk_index)))) := by
  have hk : ("Carol" ∈ ((([(⟨"BrandC", "Carol", 90⟩ : CelebRow)]).filter
      (fun r => 70 < r.health_risk_index)).map (fun r => r.celebrity_name)).dedup) := by
    decide
  exact ⟨hk, celebrity_grouping_C3 [⟨"BrandC", "Carol", 90⟩] "Carol" hk⟩

/-! ## Population-impact claim -/

/-- Claim C10: `estimate_population_impact` mutates the shared registry: a
successful call means the stored demography column was a string column and is
replaced in place by the comma-stripped, numerically coerced column (so the
stored table differs from the loaded one), the advertisers table is
untouched, and a second invocation on the post-call state raises
`AttributeError` (`.str` accessor on a numeric column) instead of
reproducing the first call's behavior. -/
theorem population_impact_mutation_C10 (s₀ s₁ : AnalyzerState) (m : ImpactMetrics)
    (h : estimate_population_impact s₀ = Except.ok (s₁, m)) :
    (∃ cells, s₀.demography_population = PopColumn.strings cells ∧
      s₁.demography_population =
        PopColumn.numbers (cells.map (fun c => (stripCommas c).bind parsePopulation))) ∧
    s₁.demography_population ≠ s₀.demography_population ∧
    s₁.advertisers_risk = s₀.advertisers_risk ∧
    estimate_population_impact s₁ =
      Except.error "AttributeError: Can only use .str accessor with string values!" := by
  obtain ⟨dem, risk⟩ := s₀
  cases dem with
  | numbers cells => simp [estimate_population_impact] at h
  | strings cells =>
    unfold estimate_population_impact at h
    simp only [Except.ok.injEq, Prod.mk.injEq] at h
    obtain ⟨hs, hm⟩ := h
    subst hs
    exact ⟨⟨cells, rfl, rfl⟩, by simp, rfl, rfl⟩

theorem population_impact_mutation_C10_witness :
    estimate_population_impact ⟨PopColumn.strings [some "1,000,000", some "abc", none],
      [80, 50]⟩ = Except.ok (⟨PopColumn.numbers [some 1000000, none, none], [80, 50]⟩,
        ⟨150000, 1, some 80⟩) ∧
    ((∃ cells, (⟨PopColumn.strings [some "1,000,000", some "abc", none],
        [80, 50]⟩ : AnalyzerState).demography_population = PopColumn.strings cells ∧
      (⟨PopColumn.numbers [some 1000000, none, none],
        [80, 50]⟩ : AnalyzerState).demography_population =
        PopColumn.numbers (cells.map (fun c => (stripCommas c).bind parsePopulation))) ∧
    (⟨PopColumn.numbers [some 1000000, none, none],
      [80, 50]⟩ : AnalyzerState).demography_population ≠
      (⟨PopColumn.strings [some "1,000,000", some "abc", none],
        [80, 50]⟩ : AnalyzerState).demography_population ∧
    (⟨PopColumn.numbers [some 1000000, none, none], [80, 50]⟩ : AnalyzerState).advertisers_risk =
      (⟨PopColumn.strings [some "1,000,000", some "abc", none],
        [80, 50]⟩ : AnalyzerState).advertisers_risk ∧
    estimate_population_impact ⟨PopColumn.numbers [some 1000000, none, none], [80, 50]⟩ =
      Except.error "AttributeError: Can only use .str accessor with string values!") := by
  have hw : estimate_population_impact ⟨PopColumn.strings [some "1,000,000", some "abc", none],
      [80, 50]⟩ = Except.ok (⟨PopColumn.numbers [some 1000000, none, none], [80, 50]⟩,
        ⟨150000, 1, some 80⟩) := by
    have h1 : stripCommas (some "1,000,000") = some "1000000" := by decide
    have h2 : stripCommas (some "abc") = some "abc" := by decide
    have h3 : parsePopulation "1000000" = some 1000000 := by decide
    have h4 : parsePopulation "abc" = none := by decide
    have h5 : stripCommas none = none := rfl
    norm_num [estimate_population_impact, h1, h2, h3, h4, h5, sumSome, listMean]
  exact ⟨hw, population_impact_mutation_C10 _ _ _ hw⟩

end IPL
